import Mathlib

/-!
# Verification of the autoComplete.js query/match/render pipeline

Shallow embedding of `src/autoComplete.js` (the `autoComplete` class:
`start`, `dataStore`, `compose`, `init`, `preInit`, `unInit`, and the
constructor) together with the controller/utility functions the class
imports.  The controllers (`dataController`, `listController`,
`navigationController`) and utilities (`eventEmitter`, `debouncer`,
`inputComponent`) are not present in the repository snapshot, so they are
modelled from the specification where needed; each such definition carries
a doc comment saying so.

DOM side effects (event emission, list rendering, navigation wiring,
callback invocation) are modelled as an explicit trace of `AcEffect`
values; a thrown JavaScript exception is modelled as `Except.error`, an
error outcome carrying no trace and no state change, matching the fact
that an exception aborts the enclosing call before any later statement
runs.
-/

namespace AutoCompleteJS

/-- JavaScript runtime errors that the modelled code can raise:
`typeError` for a call of / member access on `undefined`/`null`, and
`userError` for an error thrown (or a promise rejected) by user code. -/
inductive JsError where
  | typeError
  | userError (msg : String)
  deriving Repr, DecidableEq

/-- `leadsWith n h` is true when the list `h` starts with the list `n`
(character-list version of a string prefix test). -/
def leadsWith : List Char → List Char → Bool
  | [], _ => true
  | _ :: _, [] => false
  | a :: as, b :: bs => a == b && leadsWith as bs

/-- `occursIn n h` is true when `n` occurs as a contiguous block inside
`h`: the substring containment test of the `strict` search engine. -/
def occursIn : List Char → List Char → Bool
  | n, [] => n.isEmpty
  | n, b :: t => leadsWith n (b :: t) || occursIn n t

/-- `subseqOf n h` is true when all characters of `n` occur in `h` in
order, not necessarily contiguously: the `loose` search engine test. -/
def subseqOf : List Char → List Char → Bool
  | [], _ => true
  | _ :: _, [] => false
  | a :: as, b :: bs => if a == b then subseqOf as bs else subseqOf (a :: as) bs

/-- Modelled from the spec: diacritic folding used when the `diacritics`
config flag is set ("case/diacritic-normalized per config").  A small
fold table for common accented Latin letters; identity on everything
else (in particular on all ASCII input). -/
def foldDiacritic (c : Char) : Char :=
  if c ∈ ['á', 'à', 'â', 'ä', 'ã', 'å'] then 'a'
  else if c ∈ ['é', 'è', 'ê', 'ë'] then 'e'
  else if c ∈ ['í', 'ì', 'î', 'ï'] then 'i'
  else if c ∈ ['ó', 'ò', 'ô', 'ö', 'õ'] then 'o'
  else if c ∈ ['ú', 'ù', 'û', 'ü'] then 'u'
  else if c == 'ç' then 'c'
  else if c == 'ñ' then 'n'
  else c

/-- Character-by-character lower-casing (the structural form of
`String.toLower`, embedding JS `toLowerCase`). -/
def toLowerStr (s : String) : String := String.mk (s.toList.map Char.toLower)

/-- Modelled from the spec: the normalization applied to both the query
and the candidate value before matching — lower-casing always, diacritic
folding when the `diacritics` flag is set. -/
def normalizeStr (diacritics : Bool) (s : String) : String :=
  let low := toLowerStr s
  if diacritics then String.mk (low.toList.map foldDiacritic) else low

/-- The `searchEngine` configuration value: `"strict"` or `"loose"`. -/
inductive SearchEngine where
  | strict
  | loose
  deriving Repr, DecidableEq

/-- Dispatch on the configured search engine: `strict` is the contiguous
substring test, `loose` the in-order subsequence test. -/
def engineMatches (e : SearchEngine) (query value : List Char) : Bool :=
  match e with
  | .strict => occursIn query value
  | .loose => subseqOf query value

/-- The `data.src` configuration value: either a static array of records
or a zero-argument function returning the array (or throwing /
rejecting, modelled by `Except.error`). -/
inductive DataSrc (α : Type) where
  | list (l : List α)
  | fn (f : Unit → Except JsError (List α))

/-- The instance's `this.data` object: `src` (absent when the
configuration omitted it), the `cache` flag, and the `store` (a JS value
that is `undefined` — falsy — until populated; a populated array is
always truthy, even when empty). -/
structure DataCfg (α : Type) where
  src : Option (DataSrc α)
  cache : Bool
  store : Option (List α)

/-- The widget instance (`this` of the `autoComplete` class), restricted
to the fields the pipeline reads.  Callback hooks that the pipeline only
invokes (`noResults`, `feedback`) are modelled by their configured /
not-configured status, which is all the control flow inspects. -/
structure Inst (α : Type) where
  keyOf : α → String
  dataCfg : DataCfg α
  queryFn : Option (String → String)
  triggerEvents : List String
  condition : Option (String → Bool)
  searchEngine : SearchEngine
  diacritics : Bool
  threshold : Nat
  render : Bool
  sortCmp : Option (α → α → Bool)
  maxResults : Nat
  noResultsCb : Bool
  feedbackCb : Bool
  placeHolder : Option String

/-- The per-search data feedback object
`{ input, query, matches, results }` built by `start`. -/
structure Feedback (α : Type) where
  input : String
  query : String
  «matches» : List α
  results : List α
  deriving Repr, DecidableEq

/-- One observable step of the pipeline: a custom event dispatched on
the input field, a callback invocation, a DOM operation, or a call of
the user's `data.src` function. -/
inductive AcEffect (α : Type) where
  | callSrc
  | emitFetch (store : Option (List α))
  | closeAllLists
  | emitResults (fb : Feedback α)
  | callNoResults (fb : Feedback α)
  | callFeedback (fb : Feedback α)
  | generateList (fb : Feedback α)
  | emitRendered (fb : Feedback α)
  | navigate (fb : Feedback α)
  | emitInit
  | emitUnInit
  deriving Repr, DecidableEq

/-- Modelled from the spec: `listMatchingResults` of the (absent)
`dataController` — "for each record in the data store, compares
(case/diacritic-normalized per config) the query against the configured
key's value using the selected search engine"; "Results are optionally
sorted by a user comparator; unmatched records excluded." -/
def listMatchingResults (a : Inst α) (store : List α) (query : String) : List α :=
  let matched := store.filter fun r =>
    engineMatches a.searchEngine
      (normalizeStr a.diacritics query).toList
      (normalizeStr a.diacritics (a.keyOf r)).toList
  match a.sortCmp with
  | some cmp => matched.mergeSort cmp
  | none => matched

/-- Modelled from the spec: `getInputValue` of the (absent)
`dataController` reads the input field's current raw value; the model
receives that raw value as an argument and passes it through. -/
def getInputValue (raw : String) : String := raw

/-- Modelled from the spec: `prepareQueryValue` of the (absent)
`dataController` — "applies optional user transform to raw input before
matching; identity if absent". -/
def prepareQueryValue (input : String) (queryFn : Option (String → String)) : String :=
  match queryFn with
  | some f => f input
  | none => input

/-- Modelled from the spec: `checkTriggerCondition` of the (absent)
`dataController` — "true when `query.length >= threshold` OR a custom
trigger predicate evaluates true". -/
def checkTriggerCondition (a : Inst α) (query : String) : Bool :=
  decide (a.threshold ≤ query.length) ||
    (match a.condition with
     | some cond => cond query
     | none => false)

/-- The feedback object `start` builds:
`{ input, query, matches: results, results: results.slice(0, this.maxResults) }`. -/
def dataFeedback (a : Inst α) (input query : String) (ms : List α) : Feedback α :=
  { input := input, query := query, «matches» := ms,
    results := ms.take a.maxResults }

/-- Embedding of `autoComplete.start(input, query)`.  Matches the query
against `this.data.store` (a `TypeError` when the store is still
`undefined`, as iterating it would throw), emits `autoComplete.results`,
then branches: empty matches run the `noResults` callback when
configured; with rendering disabled the `feedback` callback is invoked
unconditionally (a `TypeError` when it was not configured); otherwise
the list is generated, `autoComplete.rendered` emitted and navigation
enabled. -/
def start (a : Inst α) (input query : String) : Except JsError (List (AcEffect α)) :=
  match a.dataCfg.store with
  | none => .error .typeError
  | some store =>
    let results := listMatchingResults a store query
    let fb := dataFeedback a input query results
    if results.isEmpty then
      .ok ([.emitResults fb] ++ if a.noResultsCb then [.callNoResults fb] else [])
    else if !a.render then
      if a.feedbackCb then .ok [.emitResults fb, .callFeedback fb]
      else .error .typeError
    else
      .ok [.emitResults fb, .generateList fb, .emitRendered fb, .navigate fb]

/-- Embedding of `autoComplete.dataStore()`.  When `cache` is set and
the store is truthy it returns immediately; otherwise it fetches from
`data.src` (calling it when it is a function — a throw/rejection
propagates), assigns the store and emits `autoComplete.fetch`. -/
def dataStore (a : Inst α) : Except JsError (Inst α × List (AcEffect α)) :=
  if a.dataCfg.cache && a.dataCfg.store.isSome then
    .ok (a, [])
  else
    match a.dataCfg.src with
    | some (.fn f) =>
      match f () with
      | .ok l =>
        .ok ({ a with dataCfg := { a.dataCfg with store := some l } },
             [.callSrc, .emitFetch (some l)])
      | .error e => .error e
    | some (.list l) =>
      .ok ({ a with dataCfg := { a.dataCfg with store := some l } },
           [.emitFetch (some l)])
    | none =>
      .ok ({ a with dataCfg := { a.dataCfg with store := none } },
           [.emitFetch none])

/-- Embedding of `autoComplete.compose()`.  Reads the raw input value,
derives the query, evaluates the trigger condition; when it holds the
data is prepared (`dataStore`), open lists are closed and `start` runs;
otherwise open lists are closed and nothing else happens.  An error
from `dataStore` or `start` propagates uncaught. -/
def compose (a : Inst α) (raw : String) : Except JsError (Inst α × List (AcEffect α)) :=
  let input := getInputValue raw
  let query := prepareQueryValue input a.queryFn
  if checkTriggerCondition a query then
    match dataStore a with
    | .error e => .error e
    | .ok (a', fetchEffs) =>
      match start a' input query with
      | .error e => .error e
      | .ok startEffs => .ok (a', fetchEffs ++ [.closeAllLists] ++ startEffs)
  else
    .ok (a, [.closeAllLists])

/-- The event listeners currently attached to the input field, as
`(eventType, listener)` pairs.  A listener is identified by a token
(`init` registers the single debounced `hook`).  The document-level
click listener installed by the constructor is outside this structure;
no claim concerns it. -/
structure FieldListeners where
  pairs : List (String × Nat)
  deriving Repr, DecidableEq

/-- DOM `addEventListener`: registering an already-present
`(eventType, listener)` pair is a no-op, otherwise the pair is added. -/
def addEventListener (st : FieldListeners) (ev : String) (h : Nat) : FieldListeners :=
  if (ev, h) ∈ st.pairs then st else ⟨st.pairs ++ [(ev, h)]⟩

/-- DOM `removeEventListener`: removes the matching
`(eventType, listener)` pair when present. -/
def removeEventListener (st : FieldListeners) (ev : String) (h : Nat) : FieldListeners :=
  ⟨st.pairs.filter fun p => !(p == (ev, h))⟩

/-- Embedding of `autoComplete.init(inputField)`.  `inputField` is
`some id` for a resolved element and `none` when the selector matched
nothing (JS `null`).  The absent `inputComponent` and `eventEmitter`
utilities are modelled from the spec as silent attribute-setting /
event dispatch with no further control-flow impact; but `init`'s own
statements `inputField.setAttribute(...)` (run only when `placeHolder`
is configured) and `inputField.addEventListener(...)` (run once per
configured trigger event) dereference the field and throw a `TypeError`
when it is `null`.  `hook` is the token of the debounced trigger
callback `init` creates. -/
def jsInit (a : Inst α) (inputField : Option Nat) (st : FieldListeners)
    (hook : Nat) : Except JsError (FieldListeners × List (AcEffect α)) :=
  match inputField with
  | some _ =>
    let st' := a.triggerEvents.foldl (fun s ev => addEventListener s ev hook) st
    .ok (st', [.emitInit])
  | none =>
    if a.placeHolder.isSome then .error .typeError
    else if a.triggerEvents.isEmpty then .ok (st, [])
    else .error .typeError

/-- The `selector` configuration value: a CSS selector string resolved
via `document.querySelector`, or a function returning the element. -/
inductive Selector where
  | css (s : String)
  | fn (f : Unit → Option Nat)

/-- `preInit`'s resolution of the target element:
`typeof this.selector === 'function' ? this.selector() :
document.querySelector(this.selector)`; `dom` models
`document.querySelector`. -/
def resolveSelector (dom : String → Option Nat) : Selector → Option Nat
  | .css s => dom s
  | .fn f => f ()

/-- Embedding of `autoComplete.preInit()`: resolves the target element
from the selector, dispatches the `connect` event (the absent
`eventEmitter` is modelled from the spec as silent, with no control-flow
impact even on a `null` element), then runs `init`. -/
def preInit (a : Inst α) (dom : String → Option Nat) (sel : Selector)
    (st : FieldListeners) (hook : Nat) :
    Except JsError (Option Nat × FieldListeners × List (AcEffect α)) :=
  let inputField := resolveSelector dom sel
  match jsInit a inputField st hook with
  | .error e => .error e
  | .ok (st', effs) => .ok (inputField, st', effs)

/-- Embedding of `autoComplete.unInit()`: removes the `("input", hook)`
listener — the event type is hard-coded to `"input"` at
`src/autoComplete.js:215` — then emits `autoComplete.unInit`. -/
def unInit (st : FieldListeners) (hook : Nat) : FieldListeners × List (AcEffect α) :=
  (removeEventListener st "input" hook, [.emitUnInit])

/-- The `data` member of the configuration object, before defaults are
applied (`cache = false` is the only defaulted key). -/
structure RawData (α : Type) where
  src : Option (DataSrc α)
  cache : Option Bool
  store : Option (List α)

/-- The configuration object passed to the constructor, restricted to
the keys the model reads.  `none` stands for an omitted key whose
default the constructor's destructuring supplies.  `data` has no
default in the destructuring pattern, so it stays `Option`; `keyOf` is
the resolved key-extraction function (identity for plain string
records). -/
structure RawConfig (α : Type) where
  selector : Option Selector
  data : Option (RawData α)
  queryFn : Option (String → String)
  triggerEvents : Option (List String)
  condition : Option (String → Bool)
  searchEngine : Option SearchEngine
  diacritics : Option Bool
  threshold : Option Nat
  renderFlag : Option Bool
  sortCmp : Option (α → α → Bool)
  placeHolder : Option String
  maxResults : Option Nat
  noResultsCb : Bool
  feedbackCb : Bool
  keyOf : α → String

/-- The instance the constructor assembles from the configuration: each
field with its documented default. -/
def configuredInst (cfg : RawConfig α) (d : RawData α) : Inst α where
  keyOf := cfg.keyOf
  dataCfg := ⟨d.src, d.cache.getD false, d.store⟩
  queryFn := cfg.queryFn
  triggerEvents := cfg.triggerEvents.getD ["input"]
  condition := cfg.condition
  searchEngine := cfg.searchEngine.getD .strict
  diacritics := cfg.diacritics.getD false
  threshold := cfg.threshold.getD 1
  render := cfg.renderFlag.getD true
  sortCmp := cfg.sortCmp
  maxResults := cfg.maxResults.getD 5
  noResultsCb := cfg.noResultsCb
  feedbackCb := cfg.feedbackCb
  placeHolder := cfg.placeHolder

/-- Embedding of the `autoComplete` constructor: destructures the
configuration (the pattern `data: { src, key, cache = false, store }`
throws a `TypeError` when the configuration has no `data` member),
assigns the instance fields with their defaults, and invokes `preInit`
automatically.  The result carries the instance, the resolved input
field, the listener state and the emitted trace. -/
def construct (dom : String → Option Nat) (cfg : RawConfig α) :
    Except JsError (Inst α × Option Nat × FieldListeners × List (AcEffect α)) :=
  match cfg.data with
  | none => .error .typeError
  | some d =>
    let a := configuredInst cfg d
    match preInit a dom (cfg.selector.getD (.css "#autoComplete")) ⟨[]⟩ 0 with
    | .error e => .error e
    | .ok (field, st, effs) => .ok (a, field, st, effs)

/-- True for the steps of a data fetch: a call of the user's `data.src`
function or the `autoComplete.fetch` event. -/
def AcEffect.isFetchStep : AcEffect α → Bool
  | .callSrc => true
  | .emitFetch _ => true
  | _ => false

/-- True for the steps of rendering a results list: generating the list,
the `autoComplete.rendered` event, or enabling navigation. -/
def AcEffect.isRenderStep : AcEffect α → Bool
  | .generateList _ => true
  | .emitRendered _ => true
  | .navigate _ => true
  | _ => false

/-- The feedback object an effect carries, when it carries one. -/
def AcEffect.payload : AcEffect α → Option (Feedback α)
  | .emitResults fb => some fb
  | .callNoResults fb => some fb
  | .callFeedback fb => some fb
  | .generateList fb => some fb
  | .emitRendered fb => some fb
  | .navigate fb => some fb
  | _ => none

/-- Fixture: an instance with the constructor's default configuration
over plain string records (identity key) and the spec scenario's static
fruit list as `data.src`. -/
def fruitInst : Inst String where
  keyOf := id
  dataCfg := ⟨some (.list ["apple", "banana", "grape"]), false, none⟩
  queryFn := none
  triggerEvents := ["input"]
  condition := none
  searchEngine := .strict
  diacritics := false
  threshold := 1
  render := true
  sortCmp := none
  maxResults := 5
  noResultsCb := false
  feedbackCb := false
  placeHolder := none

/-- Fixture: `fruitInst` with `cache` enabled and the store already
populated with the fruit list. -/
def cachedInst : Inst String :=
  { fruitInst with
    dataCfg := ⟨some (.list ["apple", "banana", "grape"]), true,
                some ["apple", "banana", "grape"]⟩ }

/-- Fixture: a `data.src` function whose invocation rejects. -/
def failSrc : Unit → Except JsError (List String) :=
  fun _ => .error (.userError "boom")

/-- Fixture: `fruitInst` with the rejecting function source and an
unpopulated store. -/
def failInst : Inst String :=
  { fruitInst with dataCfg := ⟨some (.fn failSrc), false, none⟩ }

/-- Fixture: a `data.src` function that resolves to the fruit list. -/
def fruitSrc : Unit → Except JsError (List String) :=
  fun _ => .ok ["apple", "banana", "grape"]

/-- Fixture: `fruitInst` with the resolving function source and an
unpopulated store. -/
def fnInst : Inst String :=
  { fruitInst with dataCfg := ⟨some (.fn fruitSrc), false, none⟩ }

/-- Fixture: `fruitInst` with `threshold` raised to `3` (the spec's
below-threshold scenario). -/
def thInst : Inst String := { fruitInst with threshold := 3 }

/-- Fixture: `fruitInst` with `maxResults := 1` and a populated
two-record store (the spec's truncation scenario). -/
def twoInst : Inst String :=
  { fruitInst with
    maxResults := 1
    dataCfg := ⟨some (.list ["apple", "apricot"]), false, some ["apple", "apricot"]⟩ }

/-- Fixture: `fruitInst` with `trigger.event = ["keyup"]`. -/
def keyupInst : Inst String := { fruitInst with triggerEvents := ["keyup"] }

/-- Fixture: `fruitInst` with rendering disabled, a populated store and
no `feedback` callback configured. -/
def nrInst : Inst String :=
  { fruitInst with
    render := false
    dataCfg := ⟨some (.list ["apple", "banana", "grape"]), false,
                some ["apple", "banana", "grape"]⟩ }

/-- Fixture: `nrInst` with a `feedback` callback configured. -/
def nrFbInst : Inst String := { nrInst with feedbackCb := true }

/-- Fixture: `fnInst` after its source has been fetched into the
store, as `compose` leaves it. -/
def fetchedFnInst : Inst String :=
  { fnInst with
    dataCfg := { fnInst.dataCfg with store := some ["apple", "banana", "grape"] } }

/-- Fixture: a document with no element matching any selector. -/
def emptyDom : String → Option Nat := fun _ => none

/-- Fixture: a document resolving every selector to element `1`. -/
def fullDom : String → Option Nat := fun _ => some 1

/-- Fixture: a configuration whose `data` object is present but has no
`src` (the "missing data source" case), everything else defaulted. -/
def noSrcCfg : RawConfig String where
  selector := none
  data := some ⟨none, none, none⟩
  queryFn := none
  triggerEvents := none
  condition := none
  searchEngine := none
  diacritics := none
  threshold := none
  renderFlag := none
  sortCmp := none
  placeHolder := none
  maxResults := none
  noResultsCb := false
  feedbackCb := false
  keyOf := id

/-- Fixture: a well-formed configuration (static fruit source) whose
selector matches no element in `emptyDom`. -/
def noMatchCfg : RawConfig String :=
  { noSrcCfg with
    selector := some (.css "#nope")
    data := some ⟨some (.list ["apple", "banana", "grape"]), none, none⟩ }

/-- `leadsWith` decides whether the haystack starts with the needle. -/
theorem leadsWith_iff (n h : List Char) :
    leadsWith n h = true ↔ ∃ t, h = n ++ t := by
  induction n generalizing h with
  | nil => simp [leadsWith]
  | cons a as ih =>
    cases h with
    | nil => simp [leadsWith]
    | cons b bs =>
      simp only [leadsWith, Bool.and_eq_true, beq_iff_eq, List.cons_append]
      constructor
      · rintro ⟨rfl, hl⟩
        obtain ⟨t, rfl⟩ := (ih bs).mp hl
        exact ⟨t, rfl⟩
      · rintro ⟨t, ht⟩
        injection ht with h1 h2
        exact ⟨h1.symm, (ih bs).mpr ⟨t, h2⟩⟩

/-- `occursIn` decides contiguous-substring containment. -/
theorem occursIn_iff (n h : List Char) :
    occursIn n h = true ↔ ∃ p t, h = p ++ n ++ t := by
  induction h with
  | nil =>
    simp only [occursIn, List.isEmpty_iff]
    constructor
    · rintro rfl
      exact ⟨[], [], rfl⟩
    · rintro ⟨p, t, ht⟩
      rcases List.append_eq_nil.mp ht.symm with ⟨hpn, -⟩
      exact (List.append_eq_nil.mp hpn).2
  | cons b bs ih =>
    simp only [occursIn, Bool.or_eq_true, leadsWith_iff, ih]
    constructor
    · rintro (⟨t, ht⟩ | ⟨p, t, ht⟩)
      · exact ⟨[], t, by simpa using ht⟩
      · exact ⟨b :: p, t, by simp [ht]⟩
    · rintro ⟨p, t, ht⟩
      cases p with
      | nil => exact Or.inl ⟨t, by simpa using ht⟩
      | cons c cs =>
        injection ht with h1 h2
        exact Or.inr ⟨cs, t, by simp [h2]⟩

/-- Membership in `listMatchingResults`: the record is in the store and
the configured engine matches the normalized query against its
normalized key value (the user sort, when configured, only permutes). -/
theorem mem_listMatchingResults (a : Inst α) (store : List α) (q : String) (r : α) :
    r ∈ listMatchingResults a store q ↔
      r ∈ store ∧ engineMatches a.searchEngine
        (normalizeStr a.diacritics q).toList
        (normalizeStr a.diacritics (a.keyOf r)).toList = true := by
  unfold listMatchingResults
  cases hs : a.sortCmp with
  | none => simp [List.mem_filter]
  | some cmp =>
    rw [(List.mergeSort_perm _ _).mem_iff]
    simp [List.mem_filter]

/-- `start` never performs a fetch step: neither `data.src` calls nor
`autoComplete.fetch` events appear in its trace. -/
theorem start_no_fetch_step (a : Inst α) (i q : String) (effs : List (AcEffect α))
    (h : start a i q = .ok effs) :
    effs.all (fun e => ! e.isFetchStep) = true := by
  cases hs : a.dataCfg.store with
  | none => simp [start, hs] at h
  | some store =>
    by_cases he : (listMatchingResults a store q).isEmpty
    · by_cases hn : a.noResultsCb
      · simp [start, hs, he, hn] at h
        subst h
        simp [AcEffect.isFetchStep]
      · simp [start, hs, he, hn] at h
        subst h
        simp [AcEffect.isFetchStep]
    · by_cases hr : a.render
      · simp [start, hs, he, hr] at h
        subst h
        simp [AcEffect.isFetchStep]
      · by_cases hf : a.feedbackCb
        · simp [start, hs, he, hr, hf] at h
          subst h
          simp [AcEffect.isFetchStep]
        · simp [start, hs, he, hr, hf] at h

/-- C1, counterexample: on the claim's own scenario — data
`["apple", "banana", "grape"]`, identity key, strict engine, query
`"ap"` — the match list is not `["apple"]`: `"ap"` occurs contiguously
in `"grape"` (`gr‑ap‑e`), so `"grape"` matches too. -/
theorem C1_counterexample :
    listMatchingResults fruitInst ["apple", "banana", "grape"] "ap" ≠ ["apple"] := by
  decide

/-- C1, amended: under the `strict` engine, `listMatchingResults`
includes a record iff it is in the store and the normalized query is a
contiguous substring of the record's normalized key value; on the
scenario data the matches are exactly `["apple", "grape"]`. -/
theorem C1_strict_substring (a : Inst α) (store : List α) (query : String) (r : α)
    (hengine : a.searchEngine = .strict) :
    (r ∈ listMatchingResults a store query ↔
      r ∈ store ∧ ∃ p t,
        (normalizeStr a.diacritics (a.keyOf r)).toList =
          p ++ (normalizeStr a.diacritics query).toList ++ t) ∧
    listMatchingResults fruitInst ["apple", "banana", "grape"] "ap" =
      ["apple", "grape"] := by
  constructor
  · rw [mem_listMatchingResults, hengine]
    simp only [engineMatches, occursIn_iff]
  · decide

/-- C1 witness: the amended theorem applied to the scenario instance and
the record `"grape"`. -/
theorem C1_strict_substring_witness :
    fruitInst.searchEngine = SearchEngine.strict ∧
    (("grape" ∈ listMatchingResults fruitInst ["apple", "banana", "grape"] "ap" ↔
      "grape" ∈ ["apple", "banana", "grape"] ∧ ∃ p t,
        (normalizeStr fruitInst.diacritics (fruitInst.keyOf "grape")).toList =
          p ++ (normalizeStr fruitInst.diacritics "ap").toList ++ t) ∧
     listMatchingResults fruitInst ["apple", "banana", "grape"] "ap" =
       ["apple", "grape"]) :=
  ⟨rfl, C1_strict_substring fruitInst ["apple", "banana", "grape"] "ap" "grape" rfl⟩

/-- C2: the feedback object is `{ input, query, matches, results }` with
`matches` the full ordered output of `listMatchingResults` and `results`
its `maxResults`-prefix, so `results.length ≤ maxResults` and
`matches.length ≥ results.length`; every effect of `start` carries that
one object (or none); with `maxResults = 1` and matches
`["apple", "apricot"]`, `results` is `["apple"]` while `matches` keeps
both. -/
theorem C2_feedback_shape (a : Inst α) (store : List α) (input query : String)
    (hstore : a.dataCfg.store = some store) (hmax : 0 < a.maxResults) :
    (dataFeedback a input query (listMatchingResults a store query)).input = input ∧
    (dataFeedback a input query (listMatchingResults a store query)).query = query ∧
    (dataFeedback a input query (listMatchingResults a store query)).«matches» =
      listMatchingResults a store query ∧
    (dataFeedback a input query (listMatchingResults a store query)).results =
      (listMatchingResults a store query).take a.maxResults ∧
    (dataFeedback a input query (listMatchingResults a store query)).results.length ≤
      a.maxResults ∧
    (dataFeedback a input query (listMatchingResults a store query)).results.length ≤
      (dataFeedback a input query (listMatchingResults a store query)).«matches».length ∧
    (∀ effs, start a input query = .ok effs → ∀ e ∈ effs,
      e.payload = some (dataFeedback a input query (listMatchingResults a store query)) ∨
      e.payload = none) ∧
    (dataFeedback twoInst "ap" "ap" ["apple", "apricot"]).results = ["apple"] ∧
    (dataFeedback twoInst "ap" "ap" ["apple", "apricot"]).«matches» =
      ["apple", "apricot"] := by
  refine ⟨rfl, rfl, rfl, rfl, ?_, ?_, ?_, by decide, by decide⟩
  · simp [dataFeedback]
  · simp [dataFeedback]
  · intro effs h e he
    by_cases hemp : (listMatchingResults a store query).isEmpty
    · by_cases hn : a.noResultsCb
      · simp [start, hstore, hemp, hn] at h
        subst h
        simp only [List.mem_cons, List.not_mem_nil, or_false] at he
        rcases he with rfl | rfl <;> simp [AcEffect.payload]
      · simp [start, hstore, hemp, hn] at h
        subst h
        simp only [List.mem_cons, List.not_mem_nil, or_false] at he
        subst he
        simp [AcEffect.payload]
    · by_cases hr : a.render
      · simp [start, hstore, hemp, hr] at h
        subst h
        simp only [List.mem_cons, List.not_mem_nil, or_false] at he
        rcases he with rfl | rfl | rfl | rfl <;> simp [AcEffect.payload]
      · by_cases hf : a.feedbackCb
        · simp [start, hstore, hemp, hr, hf] at h
          subst h
          simp only [List.mem_cons, List.not_mem_nil, or_false] at he
          rcases he with rfl | rfl <;> simp [AcEffect.payload]
        · simp [start, hstore, hemp, hr, hf] at h

/-- C2 witness: the theorem applied to the truncation-scenario instance
`twoInst`, with the quantified effect part instantiated at the actual
trace of `start`. -/
theorem C2_feedback_shape_witness :
    twoInst.dataCfg.store = some ["apple", "apricot"] ∧
    0 < twoInst.maxResults ∧
    (dataFeedback twoInst "ap" "ap"
      (listMatchingResults twoInst ["apple", "apricot"] "ap")).results.length ≤
      twoInst.maxResults ∧
    (dataFeedback twoInst "ap" "ap" ["apple", "apricot"]).results = ["apple"] ∧
    (dataFeedback twoInst "ap" "ap" ["apple", "apricot"]).«matches» =
      ["apple", "apricot"] := by
  have h := C2_feedback_shape twoInst ["apple", "apricot"] "ap" "ap" rfl (by decide)
  exact ⟨rfl, by decide, h.2.2.2.2.1, h.2.2.2.2.2.2.2.1, h.2.2.2.2.2.2.2.2⟩

/-- C3: when the trigger condition evaluates false, `compose` performs
no fetch (no `dataStore` step), no matching and no rendering (no `start`
step): its whole trace is the single `closeAllLists` call and the
instance is unchanged. -/
theorem C3_trigger_false (a : Inst α) (raw : String)
    (h : checkTriggerCondition a (prepareQueryValue (getInputValue raw) a.queryFn)
      = false) :
    compose a raw = .ok (a, [.closeAllLists]) := by
  simp [compose, h]

/-- C3 witness: with `threshold = 3`, no custom trigger and query
`"ap"`, the condition is false and `compose` only closes open lists. -/
theorem C3_trigger_false_witness :
    checkTriggerCondition thInst (prepareQueryValue (getInputValue "ap") thInst.queryFn)
      = false ∧
    compose thInst "ap" = .ok (thInst, [.closeAllLists]) :=
  ⟨by decide, C3_trigger_false thInst "ap" (by decide)⟩

/-- C4: with `cache` set and a truthy store, `dataStore` returns
immediately — no `data.src` call, no `autoComplete.fetch` event, store
untouched — and consequently a further `compose` call performs no fetch
step and leaves the instance unchanged. -/
theorem C4_cached_store_no_refetch (a : Inst α) (raw : String)
    (hc : a.dataCfg.cache = true) (hs : a.dataCfg.store.isSome = true) :
    dataStore a = .ok (a, []) ∧
    ∀ a' effs, compose a raw = .ok (a', effs) →
      a' = a ∧ effs.all (fun e => ! e.isFetchStep) = true := by
  have hds : dataStore a = .ok (a, []) := by
    simp [dataStore, hc, hs]
  refine ⟨hds, ?_⟩
  intro a' effs h
  simp only [compose, getInputValue, hds] at h
  by_cases ht : checkTriggerCondition a (prepareQueryValue raw a.queryFn)
  · rw [if_pos ht] at h
    cases hst : start a raw (prepareQueryValue raw a.queryFn) with
    | error e => rw [hst] at h; cases h
    | ok effs2 =>
      rw [hst] at h
      injection h with h'
      injection h' with h1 h2
      refine ⟨h1.symm, ?_⟩
      subst h2
      have h2' := start_no_fetch_step a raw (prepareQueryValue raw a.queryFn) effs2 hst
      simp only [List.nil_append, List.singleton_append, List.all_cons,
        AcEffect.isFetchStep, Bool.not_false, Bool.true_and]
      exact h2'
  · rw [if_neg ht] at h
    injection h with h'
    injection h' with h1 h2
    subst h2
    exact ⟨h1.symm, by simp [AcEffect.isFetchStep]⟩

/-- C4 witness: the theorem at the cached, populated fixture, with the
`compose` part instantiated at the trace `compose` actually produces. -/
theorem C4_cached_store_no_refetch_witness :
    cachedInst.dataCfg.cache = true ∧
    cachedInst.dataCfg.store.isSome = true ∧
    dataStore cachedInst = .ok (cachedInst, []) ∧
    (compose cachedInst "ap" = .ok (cachedInst,
      [.closeAllLists,
       .emitResults (dataFeedback cachedInst "ap" "ap" ["apple", "grape"]),
       .generateList (dataFeedback cachedInst "ap" "ap" ["apple", "grape"]),
       .emitRendered (dataFeedback cachedInst "ap" "ap" ["apple", "grape"]),
       .navigate (dataFeedback cachedInst "ap" "ap" ["apple", "grape"])]) →
      cachedInst = cachedInst ∧
      ([.closeAllLists,
        .emitResults (dataFeedback cachedInst "ap" "ap" ["apple", "grape"]),
        .generateList (dataFeedback cachedInst "ap" "ap" ["apple", "grape"]),
        .emitRendered (dataFeedback cachedInst "ap" "ap" ["apple", "grape"]),
        .navigate (dataFeedback cachedInst "ap" "ap" ["apple", "grape"])] :
           List (AcEffect String)).all
          (fun e => ! e.isFetchStep) = true) := by
  have h := C4_cached_store_no_refetch cachedInst "ap" rfl rfl
  exact ⟨rfl, rfl, h.1, h.2 cachedInst _⟩

/-- C5: when the source function throws (rejects), `dataStore` and
`compose` propagate that very error uncaught; the error outcome carries
no state change and no trace — the store keeps its previous value and
neither `closeAllLists` nor `start` is reached. -/
theorem C5_src_error_propagates (a : Inst α) (raw : String)
    (f : Unit → Except JsError (List α)) (e : JsError)
    (htrig : checkTriggerCondition a (prepareQueryValue (getInputValue raw) a.queryFn)
      = true)
    (hsrc : a.dataCfg.src = some (.fn f))
    (hnc : a.dataCfg.cache = false ∨ a.dataCfg.store = none)
    (hf : f () = .error e) :
    dataStore a = .error e ∧ compose a raw = .error e := by
  have hcond : (a.dataCfg.cache && a.dataCfg.store.isSome) = false := by
    rcases hnc with h | h <;> simp [h]
  have hds : dataStore a = .error e := by
    simp [dataStore, hcond, hsrc, hf]
  have htrig' : checkTriggerCondition a (prepareQueryValue raw a.queryFn) = true := htrig
  exact ⟨hds, by simp [compose, getInputValue, htrig', hds]⟩

/-- C5 witness: the theorem at the fixture whose source rejects with
`userError "boom"`. -/
theorem C5_src_error_propagates_witness :
    checkTriggerCondition failInst
      (prepareQueryValue (getInputValue "ap") failInst.queryFn) = true ∧
    failInst.dataCfg.src = some (.fn failSrc) ∧
    (failInst.dataCfg.cache = false ∨ failInst.dataCfg.store = none) ∧
    failSrc () = .error (.userError "boom") ∧
    dataStore failInst = .error (.userError "boom") ∧
    compose failInst "ap" = .error (.userError "boom") := by
  have h := C5_src_error_propagates failInst "ap" failSrc (.userError "boom")
    (by decide) rfl (Or.inl rfl) rfl
  exact ⟨by decide, rfl, Or.inl rfl, rfl, h.1, h.2⟩

/-- C6: with an empty match list `start` emits `autoComplete.results`
and then only runs the `noResults` callback when one is configured —
no list generation, no `autoComplete.rendered`, no navigation, and no
error either way. -/
theorem C6_empty_matches (a : Inst α) (store : List α) (input query : String)
    (hstore : a.dataCfg.store = some store)
    (hempty : listMatchingResults a store query = []) :
    start a input query =
      .ok ([.emitResults (dataFeedback a input query [])] ++
        if a.noResultsCb then [.callNoResults (dataFeedback a input query [])]
        else []) ∧
    ∀ effs, start a input query = .ok effs →
      effs.all (fun e => ! e.isRenderStep) = true := by
  have heq : start a input query =
      .ok ([.emitResults (dataFeedback a input query [])] ++
        if a.noResultsCb then [.callNoResults (dataFeedback a input query [])]
        else []) := by
    by_cases hn : a.noResultsCb <;> simp [start, hstore, hempty, hn, dataFeedback]
  refine ⟨heq, ?_⟩
  intro effs h
  rw [heq] at h
  injection h with h'
  subst h'
  by_cases hn : a.noResultsCb <;> simp [hn, AcEffect.isRenderStep]

/-- C6 witness: the theorem at the fruit store with query `"xyz"`,
which matches nothing; `noResults` is not configured, so `start` only
emits `autoComplete.results`. -/
theorem C6_empty_matches_witness :
    cachedInst.dataCfg.store = some ["apple", "banana", "grape"] ∧
    listMatchingResults cachedInst ["apple", "banana", "grape"] "xyz" = [] ∧
    start cachedInst "xyz" "xyz" =
      .ok ([.emitResults (dataFeedback cachedInst "xyz" "xyz" [])] ++
        if cachedInst.noResultsCb
        then [.callNoResults (dataFeedback cachedInst "xyz" "xyz" [])] else []) := by
  have h := C6_empty_matches cachedInst ["apple", "banana", "grape"] "xyz" "xyz"
    rfl (by decide)
  exact ⟨rfl, by decide, h.1⟩

/-- `listMatchingResults` reads only `keyOf`, `searchEngine`,
`diacritics` and `sortCmp` of the instance, so any instance sharing
those four fields with `a` matches identically. -/
theorem listMatchingResults_fields (a : Inst α) (dc : DataCfg α)
    (qf : Option (String → String)) (te : List String)
    (c : Option (String → Bool)) (th : Nat) (re : Bool) (mr : Nat)
    (nrc fcb : Bool) (ph : Option String) (store : List α) (q : String) :
    listMatchingResults
      ⟨a.keyOf, dc, qf, te, c, a.searchEngine, a.diacritics, th, re,
        a.sortCmp, mr, nrc, fcb, ph⟩ store q =
      listMatchingResults a store q := rfl

/-- `dataFeedback` reads only `maxResults` of the instance, so any
instance sharing it with `a` builds the identical feedback object. -/
theorem dataFeedback_fields (a : Inst α) (k : α → String) (dc : DataCfg α)
    (qf : Option (String → String)) (te : List String)
    (c : Option (String → Bool)) (se : SearchEngine) (di : Bool) (th : Nat)
    (re : Bool) (sc : Option (α → α → Bool)) (nrc fcb : Bool)
    (ph : Option String) (i q : String) (ms : List α) :
    dataFeedback ⟨k, dc, qf, te, c, se, di, th, re, sc, a.maxResults, nrc, fcb, ph⟩
      i q ms = dataFeedback a i q ms := rfl

/-- C7: on every composing pass where the trigger condition holds, the
match list is non-empty and rendering is enabled, the dispatched events
are ordered as: the fetch steps first — an empty prefix exactly when
`cache` holds with a truthy store (no fetch performed), otherwise the
optional source call followed by `autoComplete.fetch` — then
`closeAllLists`, then `autoComplete.results` carrying the feedback
object, then list generation, then `autoComplete.rendered`, then
navigation. -/
theorem C7_event_order (a a' : Inst α) (raw : String)
    (effs : List (AcEffect α)) (store' : List α)
    (htrig : checkTriggerCondition a (prepareQueryValue (getInputValue raw) a.queryFn)
      = true)
    (hrender : a.render = true)
    (hcomp : compose a raw = .ok (a', effs))
    (hstore' : a'.dataCfg.store = some store')
    (hne : listMatchingResults a' store'
      (prepareQueryValue (getInputValue raw) a.queryFn) ≠ []) :
    ∃ fetchEffs fb,
      fb = dataFeedback a' (getInputValue raw)
        (prepareQueryValue (getInputValue raw) a.queryFn)
        (listMatchingResults a' store'
          (prepareQueryValue (getInputValue raw) a.queryFn)) ∧
      effs = fetchEffs ++
        [.closeAllLists, .emitResults fb, .generateList fb,
         .emitRendered fb, .navigate fb] ∧
      (((a.dataCfg.cache && a.dataCfg.store.isSome) = true ∧ fetchEffs = []) ∨
       ((a.dataCfg.cache && a.dataCfg.store.isSome) = false ∧
         ∃ s, fetchEffs = [.emitFetch s] ∨ fetchEffs = [.callSrc, .emitFetch s])) := by
  simp only [compose, htrig, eq_self_iff_true, if_true] at hcomp
  cases hds : dataStore a with
  | error e =>
    rw [hds] at hcomp
    simp at hcomp
  | ok p =>
    obtain ⟨a1, fEffs⟩ := p
    rw [hds] at hcomp
    dsimp only at hcomp
    cases hst : start a1 (getInputValue raw)
        (prepareQueryValue (getInputValue raw) a.queryFn) with
    | error e =>
      rw [hst] at hcomp
      simp at hcomp
    | ok sEffs =>
      rw [hst] at hcomp
      simp only at hcomp
      injection hcomp with h'
      injection h' with h1 h2
      subst h1
      subst h2
      have hguard : ((a.dataCfg.cache && a.dataCfg.store.isSome) = true ∧
            a1 = a ∧ fEffs = []) ∨
          ((a.dataCfg.cache && a.dataCfg.store.isSome) = false ∧
            a1.render = a.render ∧
            ∃ s, fEffs = [.emitFetch s] ∨ fEffs = [.callSrc, .emitFetch s]) := by
        cases hb : (a.dataCfg.cache && a.dataCfg.store.isSome) with
        | true =>
          have hda : dataStore a = .ok (a, []) := by simp [dataStore, hb]
          rw [hda] at hds
          injection hds with h'
          injection h' with h1 h2
          exact Or.inl ⟨rfl, h1.symm, h2.symm⟩
        | false =>
          cases hsrc : a.dataCfg.src with
          | none =>
            have hda : dataStore a = .ok
                ({ a with dataCfg := { a.dataCfg with store := none } },
                 [.emitFetch none]) := by
              simp [dataStore, hb, hsrc]
            rw [hda] at hds
            injection hds with h'
            injection h' with h1 h2
            refine Or.inr ⟨rfl, ?_, ⟨none, Or.inl h2.symm⟩⟩
            rw [← h1]
          | some s =>
            cases s with
            | list l =>
              have hda : dataStore a = .ok
                  ({ a with dataCfg := { a.dataCfg with store := some l } },
                   [.emitFetch (some l)]) := by
                simp [dataStore, hb, hsrc]
              rw [hda] at hds
              injection hds with h'
              injection h' with h1 h2
              refine Or.inr ⟨rfl, ?_, ⟨some l, Or.inl h2.symm⟩⟩
              rw [← h1]
            | fn f =>
              cases hf : f () with
              | error e =>
                have hda : dataStore a = .error e := by
                  simp [dataStore, hb, hsrc, hf]
                rw [hda] at hds
                simp at hds
              | ok l =>
                have hda : dataStore a = .ok
                    ({ a with dataCfg := { a.dataCfg with store := some l } },
                     [.callSrc, .emitFetch (some l)]) := by
                  simp [dataStore, hb, hsrc, hf]
                rw [hda] at hds
                injection hds with h'
                injection h' with h1 h2
                refine Or.inr ⟨rfl, ?_, ⟨some l, Or.inr h2.symm⟩⟩
                rw [← h1]
      have hrender1 : a1.render = true := by
        rcases hguard with ⟨-, h1, -⟩ | ⟨-, hr, -⟩
        · rw [h1, hrender]
        · rw [hr, hrender]
      have hie : (listMatchingResults a1 store'
          (prepareQueryValue (getInputValue raw) a.queryFn)).isEmpty = false := by
        simpa [List.isEmpty_iff] using hne
      have hsEffs : sEffs =
          [.emitResults (dataFeedback a1 (getInputValue raw)
             (prepareQueryValue (getInputValue raw) a.queryFn)
             (listMatchingResults a1 store'
               (prepareQueryValue (getInputValue raw) a.queryFn))),
           .generateList (dataFeedback a1 (getInputValue raw)
             (prepareQueryValue (getInputValue raw) a.queryFn)
             (listMatchingResults a1 store'
               (prepareQueryValue (getInputValue raw) a.queryFn))),
           .emitRendered (dataFeedback a1 (getInputValue raw)
             (prepareQueryValue (getInputValue raw) a.queryFn)
             (listMatchingResults a1 store'
               (prepareQueryValue (getInputValue raw) a.queryFn))),
           .navigate (dataFeedback a1 (getInputValue raw)
             (prepareQueryValue (getInputValue raw) a.queryFn)
             (listMatchingResults a1 store'
               (prepareQueryValue (getInputValue raw) a.queryFn)))] := by
        have h := hst
        simp only [start, hstore', hie, hrender1, Bool.not_true, Bool.false_eq_true,
          if_false, List.isEmpty_eq_false] at h
        injection h with h'
        exact h'.symm
      refine ⟨fEffs, dataFeedback a1 (getInputValue raw)
        (prepareQueryValue (getInputValue raw) a.queryFn)
        (listMatchingResults a1 store'
          (prepareQueryValue (getInputValue raw) a.queryFn)), rfl, ?_, ?_⟩
      · rw [hsEffs]
        simp
      · rcases hguard with ⟨hb, -, hfe⟩ | ⟨hb, -, hfe⟩
        · exact Or.inl ⟨hb, hfe⟩
        · exact Or.inr ⟨hb, hfe⟩

/-- C7 witness: the theorem applied to a fetching pass (function-source
fixture `fnInst`, whose trace opens with the source call and
`autoComplete.fetch`) and to a cached pass (`cachedInst`, whose trace
has no fetch step at all), both with query `"ap"`. -/
theorem C7_event_order_witness :
    checkTriggerCondition fnInst
      (prepareQueryValue (getInputValue "ap") fnInst.queryFn) = true ∧
    fnInst.render = true ∧
    compose fnInst "ap" = .ok (fetchedFnInst,
      [.callSrc, .emitFetch (some ["apple", "banana", "grape"]), .closeAllLists,
       .emitResults ⟨"ap", "ap", ["apple", "grape"], ["apple", "grape"]⟩,
       .generateList ⟨"ap", "ap", ["apple", "grape"], ["apple", "grape"]⟩,
       .emitRendered ⟨"ap", "ap", ["apple", "grape"], ["apple", "grape"]⟩,
       .navigate ⟨"ap", "ap", ["apple", "grape"], ["apple", "grape"]⟩]) ∧
    fetchedFnInst.dataCfg.store = some ["apple", "banana", "grape"] ∧
    listMatchingResults fetchedFnInst ["apple", "banana", "grape"]
      (prepareQueryValue (getInputValue "ap") fnInst.queryFn) ≠ [] ∧
    (∃ fetchEffs fb,
      fb = dataFeedback fetchedFnInst (getInputValue "ap")
        (prepareQueryValue (getInputValue "ap") fnInst.queryFn)
        (listMatchingResults fetchedFnInst ["apple", "banana", "grape"]
          (prepareQueryValue (getInputValue "ap") fnInst.queryFn)) ∧
      ([.callSrc, .emitFetch (some ["apple", "banana", "grape"]), .closeAllLists,
        .emitResults ⟨"ap", "ap", ["apple", "grape"], ["apple", "grape"]⟩,
        .generateList ⟨"ap", "ap", ["apple", "grape"], ["apple", "grape"]⟩,
        .emitRendered ⟨"ap", "ap", ["apple", "grape"], ["apple", "grape"]⟩,
        .navigate ⟨"ap", "ap", ["apple", "grape"], ["apple", "grape"]⟩] :
          List (AcEffect String)) =
        fetchEffs ++ [.closeAllLists, .emitResults fb, .generateList fb,
          .emitRendered fb, .navigate fb] ∧
      (((fnInst.dataCfg.cache && fnInst.dataCfg.store.isSome) = true ∧
          fetchEffs = []) ∨
       ((fnInst.dataCfg.cache && fnInst.dataCfg.store.isSome) = false ∧
         ∃ s, fetchEffs = [.emitFetch s] ∨ fetchEffs = [.callSrc, .emitFetch s]))) ∧
    checkTriggerCondition cachedInst
      (prepareQueryValue (getInputValue "ap") cachedInst.queryFn) = true ∧
    cachedInst.render = true ∧
    cachedInst.dataCfg.cache = true ∧
    compose cachedInst "ap" = .ok (cachedInst,
      [.closeAllLists,
       .emitResults ⟨"ap", "ap", ["apple", "grape"], ["apple", "grape"]⟩,
       .generateList ⟨"ap", "ap", ["apple", "grape"], ["apple", "grape"]⟩,
       .emitRendered ⟨"ap", "ap", ["apple", "grape"], ["apple", "grape"]⟩,
       .navigate ⟨"ap", "ap", ["apple", "grape"], ["apple", "grape"]⟩]) ∧
    cachedInst.dataCfg.store = some ["apple", "banana", "grape"] ∧
    listMatchingResults cachedInst ["apple", "banana", "grape"]
      (prepareQueryValue (getInputValue "ap") cachedInst.queryFn) ≠ [] ∧
    (∃ fetchEffs fb,
      fb = dataFeedback cachedInst (getInputValue "ap")
        (prepareQueryValue (getInputValue "ap") cachedInst.queryFn)
        (listMatchingResults cachedInst ["apple", "banana", "grape"]
          (prepareQueryValue (getInputValue "ap") cachedInst.queryFn)) ∧
      ([.closeAllLists,
        .emitResults ⟨"ap", "ap", ["apple", "grape"], ["apple", "grape"]⟩,
        .generateList ⟨"ap", "ap", ["apple", "grape"], ["apple", "grape"]⟩,
        .emitRendered ⟨"ap", "ap", ["apple", "grape"], ["apple", "grape"]⟩,
        .navigate ⟨"ap", "ap", ["apple", "grape"], ["apple", "grape"]⟩] :
          List (AcEffect String)) =
        fetchEffs ++ [.closeAllLists, .emitResults fb, .generateList fb,
          .emitRendered fb, .navigate fb] ∧
      (((cachedInst.dataCfg.cache && cachedInst.dataCfg.store.isSome) = true ∧
          fetchEffs = []) ∨
       ((cachedInst.dataCfg.cache && cachedInst.dataCfg.store.isSome) = false ∧
         ∃ s, fetchEffs = [.emitFetch s] ∨ fetchEffs = [.callSrc, .emitFetch s]))) := by
  have hcomp1 : compose fnInst "ap" = .ok (fetchedFnInst,
      [.callSrc, .emitFetch (some ["apple", "banana", "grape"]), .closeAllLists,
       .emitResults ⟨"ap", "ap", ["apple", "grape"], ["apple", "grape"]⟩,
       .generateList ⟨"ap", "ap", ["apple", "grape"], ["apple", "grape"]⟩,
       .emitRendered ⟨"ap", "ap", ["apple", "grape"], ["apple", "grape"]⟩,
       .navigate ⟨"ap", "ap", ["apple", "grape"], ["apple", "grape"]⟩]) := rfl
  have hcomp2 : compose cachedInst "ap" = .ok (cachedInst,
      [.closeAllLists,
       .emitResults ⟨"ap", "ap", ["apple", "grape"], ["apple", "grape"]⟩,
       .generateList ⟨"ap", "ap", ["apple", "grape"], ["apple", "grape"]⟩,
       .emitRendered ⟨"ap", "ap", ["apple", "grape"], ["apple", "grape"]⟩,
       .navigate ⟨"ap", "ap", ["apple", "grape"], ["apple", "grape"]⟩]) := rfl
  refine ⟨by decide, rfl, hcomp1, rfl, by decide, ?_,
          by decide, rfl, rfl, hcomp2, rfl, by decide, ?_⟩
  · exact C7_event_order fnInst fetchedFnInst "ap" _ ["apple", "banana", "grape"]
      (by decide) rfl hcomp1 rfl (by decide)
  · exact C7_event_order cachedInst cachedInst "ap" _ ["apple", "banana", "grape"]
      (by decide) rfl hcomp2 rfl (by decide)

/-- C8 (code-bug evidence): with `trigger.event = ["keyup"]`, `init`
attaches the debounced hook to the `keyup` event, but `unInit` removes
only the hard-coded `("input", hook)` pair (`src/autoComplete.js:215`),
so after init-then-unInit the `keyup` listener is still attached — the
instance still reacts to its configured trigger event — even though
`autoComplete.unInit` is emitted.  With the default `["input"]` the
listener is removed, showing the asymmetry with `init`. -/
theorem C8_unInit_leaves_trigger_listener :
    jsInit keyupInst (some 1) ⟨[]⟩ 0 =
      .ok (⟨[("keyup", 0)]⟩, [AcEffect.emitInit]) ∧
    unInit (α := String) ⟨[("keyup", 0)]⟩ 0 =
      (⟨[("keyup", 0)]⟩, [AcEffect.emitUnInit]) ∧
    ("keyup", 0) ∈ (unInit (α := String) ⟨[("keyup", 0)]⟩ 0).1.pairs ∧
    jsInit fruitInst (some 1) ⟨[]⟩ 0 =
      .ok (⟨[("input", 0)]⟩, [AcEffect.emitInit]) ∧
    unInit (α := String) ⟨[("input", 0)]⟩ 0 = (⟨[]⟩, [AcEffect.emitUnInit]) := by
  refine ⟨rfl, rfl, by decide, rfl, rfl⟩

/-- C9, counterexample: constructing with a selector that matches no
element does raise an error: `init` dereferences the `null` input field
when attaching the default `input` trigger listener, so the constructor
throws a `TypeError` — construction is not silent in that case. -/
theorem C9_counterexample :
    construct emptyDom noMatchCfg = .error .typeError := rfl

/-- C9, amended: a missing data source (`data` object present, `src`
absent) is silent — construction succeeds and merely leaves a
non-functional instance; but a selector matching no element raises a
`TypeError` during the automatic `preInit`/`init` (null input-field
dereference), given at least one configured trigger event (the default
is `["input"]`). -/
theorem C9_amended (dom : String → Option Nat) (cfg : RawConfig α) (d : RawData α)
    (hdata : cfg.data = some d) :
    (∀ el, resolveSelector dom (cfg.selector.getD (.css "#autoComplete")) = some el →
      construct dom cfg = .ok (configuredInst cfg d, some el,
        (cfg.triggerEvents.getD ["input"]).foldl
          (fun s ev => addEventListener s ev 0) ⟨[]⟩,
        [AcEffect.emitInit])) ∧
    (resolveSelector dom (cfg.selector.getD (.css "#autoComplete")) = none →
      (cfg.triggerEvents.getD ["input"]).isEmpty = false →
      construct dom cfg = .error .typeError) := by
  constructor
  · intro el hel
    simp [construct, hdata, preInit, hel, jsInit, configuredInst]
  · intro hnone hne
    by_cases hph : cfg.placeHolder.isSome
    · simp [construct, hdata, preInit, hnone, jsInit, configuredInst, hph]
    · simp [construct, hdata, preInit, hnone, jsInit, configuredInst, hph, hne]

/-- C9 witness: the amended theorem applied to a src-less configuration
on a resolving document, and to the fruit configuration on an empty
document. -/
theorem C9_amended_witness :
    noSrcCfg.data = some ⟨none, none, none⟩ ∧
    resolveSelector fullDom (noSrcCfg.selector.getD (.css "#autoComplete"))
      = some 1 ∧
    construct fullDom noSrcCfg = .ok (configuredInst noSrcCfg ⟨none, none, none⟩,
      some 1,
      (noSrcCfg.triggerEvents.getD ["input"]).foldl
        (fun s ev => addEventListener s ev 0) ⟨[]⟩,
      [AcEffect.emitInit]) ∧
    noMatchCfg.data = some ⟨some (.list ["apple", "banana", "grape"]), none, none⟩ ∧
    resolveSelector emptyDom (noMatchCfg.selector.getD (.css "#autoComplete"))
      = none ∧
    (noMatchCfg.triggerEvents.getD ["input"]).isEmpty = false ∧
    construct emptyDom noMatchCfg = .error .typeError := by
  refine ⟨rfl, rfl, ?_, rfl, rfl, rfl, ?_⟩
  · exact (C9_amended fullDom noSrcCfg ⟨none, none, none⟩ rfl).1 1 rfl
  · exact (C9_amended emptyDom noMatchCfg
      ⟨some (.list ["apple", "banana", "grape"]), none, none⟩ rfl).2 rfl rfl

/-- C10: on the non-rendering path with at least one match, `start`
calls `this.feedback(dataFeedback)` unconditionally: with no feedback
callback configured the call throws a `TypeError`; with one configured
the trace is the results event followed by the feedback call. -/
theorem C10_feedback_mandatory (a : Inst α) (store : List α) (input query : String)
    (hstore : a.dataCfg.store = some store)
    (hrender : a.render = false)
    (hne : listMatchingResults a store query ≠ []) :
    (a.feedbackCb = false → start a input query = .error .typeError) ∧
    (a.feedbackCb = true → start a input query =
      .ok [.emitResults (dataFeedback a input query
             (listMatchingResults a store query)),
           .callFeedback (dataFeedback a input query
             (listMatchingResults a store query))]) := by
  have hie : (listMatchingResults a store query).isEmpty = false := by
    simpa [List.isEmpty_iff] using hne
  constructor <;> intro hf <;> simp [start, hstore, hie, hrender, hf]

/-- C10 witness: with rendering disabled and matches present, the
fixture without a feedback callback throws and the fixture with one
runs the callback. -/
theorem C10_feedback_mandatory_witness :
    nrInst.dataCfg.store = some ["apple", "banana", "grape"] ∧
    nrInst.render = false ∧
    listMatchingResults nrInst ["apple", "banana", "grape"] "ap" ≠ [] ∧
    nrInst.feedbackCb = false ∧
    start nrInst "ap" "ap" = .error .typeError ∧
    nrFbInst.feedbackCb = true ∧
    start nrFbInst "ap" "ap" =
      .ok [.emitResults (dataFeedback nrFbInst "ap" "ap"
             (listMatchingResults nrFbInst ["apple", "banana", "grape"] "ap")),
           .callFeedback (dataFeedback nrFbInst "ap" "ap"
             (listMatchingResults nrFbInst ["apple", "banana", "grape"] "ap"))] := by
  refine ⟨rfl, rfl, by decide, rfl, ?_, rfl, ?_⟩
  · exact (C10_feedback_mandatory nrInst ["apple", "banana", "grape"] "ap" "ap"
      rfl rfl (by decide)).1 rfl
  · exact (C10_feedback_mandatory nrFbInst ["apple", "banana", "grape"] "ap" "ap"
      rfl rfl (by decide)).2 rfl

end AutoCompleteJS
